import Mathlib

/-!
Verification of the abstract writer contract of the OME-Files C++ library
(`src/lib/ome/files/FormatWriter.h`).  The repository ships only the pure
virtual `FormatWriter` interface; the stateful behaviour behind it (the
addressing cursor, the plane write validator, the capability registry, the
tile geometry negotiator, the metadata binding and the output lifecycle) is
specified in the accompanying design document and modelled here from that
specification.  The one concrete piece of the header, the
`frame_rate_type` typedef (`uint16_t`), is embedded directly.
-/

namespace OmeFiles

/-- Pixel types of the OME data model (`ome::xml::model::enums::PixelType`),
the value type used by the capability registry and the metadata binding. -/
inductive PixelType where
  | int8
  | int16
  | int32
  | uint8
  | uint16
  | uint32
  | float
  | double
  | complexfloat
  | complexdouble
  | bit
deriving DecidableEq, Repr

/-- Bytes per pixel for each OME pixel type, as used in the expected plane
byte length `width * height * bytesPerPixel(pixelType) * rgbChannelCount`. -/
def bytesPerPixel : PixelType → Nat
  | .int8 => 1
  | .int16 => 2
  | .int32 => 4
  | .uint8 => 1
  | .uint16 => 2
  | .uint32 => 4
  | .float => 4
  | .double => 8
  | .complexfloat => 8
  | .complexdouble => 16
  | .bit => 1

/-- Modelled from the spec: the per-series geometry supplied by the external
metadata source (series count, plane count, width, height, pixel type,
channel count) — the `MetadataRetrieve` collaborator is outside `src/`. -/
structure CoreMetadata where
  sizeX : Nat
  sizeY : Nat
  planeCount : Nat
  pixelType : PixelType
  rgbChannelCount : Nat
deriving DecidableEq, Repr

/-- Modelled from the spec: a concrete format's tiling capability — it may
accept any requested tile size, only a fixed set of sizes, or no
sub-plane tiling at all. -/
inductive TilingSupport where
  | arbitrary
  | fixedSizes (sizes : List Nat)
  | unsupported

/-- Modelled from the spec: the capability registry a concrete writer
declares statically — supported pixel types, supported compression
identifiers, the pixel-type/compression pairing relation, tiling support
per axis, and multi-series (stack) support.  The concrete writers that
populate it are outside `src/`. -/
structure Format where
  pixelTypes : List PixelType
  compressionTypes : List String
  codecPairing : PixelType → String → Bool
  tilingX : TilingSupport
  tilingY : TilingSupport
  stackSupport : Bool

/-- Supported pixel types, unconditionally (`getPixelTypes()`). -/
def getPixelTypes (f : Format) : List PixelType :=
  f.pixelTypes

/-- Supported pixel types for a given codec (`getPixelTypes(codec)`):
the unconditional set filtered by the declared pairing relation. -/
def getPixelTypesForCodec (f : Format) (codec : String) : List PixelType :=
  (getPixelTypes f).filter (fun t => f.codecPairing t codec)

/-- Check whether the pixel type is supported (`isSupportedType(type)`). -/
def isSupportedType (f : Format) (t : PixelType) : Bool :=
  decide (t ∈ getPixelTypes f)

/-- Check whether the pixel type is supported by the given codec
(`isSupportedType(type, codec)`). -/
def isSupportedTypeForCodec (f : Format) (t : PixelType) (codec : String) : Bool :=
  decide (t ∈ getPixelTypesForCodec f codec)

/-- Supported compression types, unconditionally (`getCompressionTypes()`). -/
def getCompressionTypes (f : Format) : List String :=
  f.compressionTypes

/-- Supported compression types for a given pixel type
(`getCompressionTypes(type)`): the unconditional set filtered by the
declared pairing relation. -/
def getCompressionTypesForType (f : Format) (t : PixelType) : List String :=
  (getCompressionTypes f).filter (fun c => f.codecPairing t c)

/-- Whether the writer can place multiple images in one file
(`canDoStacks()`). -/
def canDoStacks (f : Format) : Bool :=
  f.stackSupport

/-- Modelled from the spec: the error kinds signalled by the writer contract
(the C++ code throws `FormatException`; the exception hierarchy lives
outside `src/`). -/
inductive WriterError where
  | invalidIndex
  | invalidRegion
  | bufferSizeMismatch
  | unsupportedPixelType
  | unsupportedCompression
  | notConfigured
  | ioFailure
deriving DecidableEq, Repr

/-- Modelled from the spec: the caller-supplied pixel buffer
(`VariantPixelBuffer`, outside `src/`); the core inspects only its declared
element count and pixel type. -/
structure PixelBuffer where
  size : Nat
  pixelType : PixelType
deriving DecidableEq, Repr

/-- Modelled from the spec: a record of one validated write handed to the
format encoder — the series, plane and rectangle that were written. -/
structure WriteRecord where
  series : Nat
  plane : Nat
  x : Nat
  y : Nat
  width : Nat
  height : Nat
deriving DecidableEq, Repr

/-- Modelled from the spec: the writer's state — capability registry,
optional metadata binding, addressing cursor (active series and plane),
writer-scoped settings (compression, interleaving, tile sizes, frame
rate, sequential-write hint), the bound output file and the write records
handed to the encoder for the current destination.  The concrete stateful
implementation behind the `FormatWriter` interface is outside `src/`. -/
structure Writer where
  format : Format
  metadata : Option (List CoreMetadata)
  series : Nat
  plane : Nat
  compression : Option String
  interleaved : Option Bool
  tileSizeX : Option Nat
  tileSizeY : Option Nat
  framesPerSecond : Nat
  writeSequentially : Bool
  outputFile : Option String
  output : List WriteRecord

/-- Modelled from the spec: a freshly constructed writer — inert, with no
metadata binding, cursor at series 0 / plane 0, all optional settings
unset and nothing written. -/
def initialWriter (f : Format) : Writer :=
  { format := f
    metadata := none
    series := 0
    plane := 0
    compression := none
    interleaved := none
    tileSizeX := none
    tileSizeY := none
    framesPerSecond := 0
    writeSequentially := false
    outputFile := none
    output := [] }

/-- Get the active series (`getSeries()`). -/
def getSeries (w : Writer) : Nat :=
  w.series

/-- Get the active plane (`getPlane()`). -/
def getPlane (w : Writer) : Nat :=
  w.plane

/-- Attach the external metadata source (`setMetadataRetrieve`). -/
def setMetadataRetrieve (w : Writer) (md : List CoreMetadata) : Writer :=
  { w with metadata := some md }

/-- Geometry of the active series, re-queried from the metadata binding. -/
def activeSeriesMeta (w : Writer) : Option CoreMetadata :=
  w.metadata.bind (fun md => md[w.series]?)

/-- Modelled from the spec: `setSeries(i)` sets the active series; it fails
with `InvalidIndex` if `i` is not below the series count reported by the
metadata binding, and with `NotConfigured` if no binding is attached. -/
def setSeries (w : Writer) (i : Nat) : Writer × Option WriterError :=
  match w.metadata with
  | none => (w, some .notConfigured)
  | some md =>
      if i < md.length then ({ w with series := i }, none)
      else (w, some .invalidIndex)

/-- Modelled from the spec: `setPlane(i)` sets the active plane; it fails
with `InvalidIndex` if `i` is not below the active series' plane count. -/
def setPlane (w : Writer) (i : Nat) : Writer × Option WriterError :=
  match w.metadata with
  | none => (w, some .notConfigured)
  | some md =>
      match md[w.series]? with
      | none => (w, some .invalidIndex)
      | some sm =>
          if i < sm.planeCount then ({ w with plane := i }, none)
          else (w, some .invalidIndex)

/-- Modelled from the spec: `setCompression(name)` fails with
`UnsupportedCompression` if the name is not in the unconditional supported
set; the pixel-type/compression joint check is deferred to write time. -/
def setCompression (w : Writer) (c : String) : Writer × Option WriterError :=
  if c ∈ getCompressionTypes w.format then ({ w with compression := some c }, none)
  else (w, some .unsupportedCompression)

/-- Set subchannel interleaving (`setInterleaved`). -/
def setInterleaved (w : Writer) (b : Bool) : Writer :=
  { w with interleaved := some b }

/-- Set the sequential-write hint (`setWriteSequentially`). -/
def setWriteSequentially (w : Writer) (b : Bool) : Writer :=
  { w with writeSequentially := b }

/-- Set the frame rate (`setFramesPerSecond`); `frame_rate_type` is
`uint16_t` in the header, so the stored value is reduced modulo 2^16. -/
def setFramesPerSecond (w : Writer) (rate : Nat) : Writer :=
  { w with framesPerSecond := rate % 2 ^ 16 }

/-- Get the frame rate (`getFramesPerSecond`). -/
def getFramesPerSecond (w : Writer) : Nat :=
  w.framesPerSecond

/-- Full plane width of the active series, the default tile width. -/
def fullSizeX (w : Writer) : Nat :=
  match activeSeriesMeta w with
  | some sm => sm.sizeX
  | none => 0

/-- Full plane height of the active series, the default tile height. -/
def fullSizeY (w : Writer) : Nat :=
  match activeSeriesMeta w with
  | some sm => sm.sizeY
  | none => 0

/-- Smallest element of `sizes` that is at least `r`, if any. -/
def smallestAtLeast (sizes : List Nat) (r : Nat) : Option Nat :=
  (sizes.filter (fun s => r ≤ s)).min?

/-- Modelled from the spec: tile geometry negotiation — with arbitrary
tiling support the effective size is the requested size; with a fixed set
it is the smallest supported size not below the request, or the full
plane dimension if none qualifies; with tiling unsupported it is always
the full plane dimension; an absent request means the full dimension. -/
def negotiateTileSize (support : TilingSupport) (fullDim : Nat) (req : Option Nat) : Nat :=
  match req with
  | none => fullDim
  | some r =>
      match support with
      | .arbitrary => r
      | .fixedSizes sizes => (smallestAtLeast sizes r).getD fullDim
      | .unsupported => fullDim

/-- Modelled from the spec: `setTileSizeX(size)` negotiates the requested
tile width against the format's tiling support, records the effective
width and returns it. -/
def setTileSizeX (w : Writer) (req : Option Nat) : Writer × Nat :=
  let eff := negotiateTileSize w.format.tilingX (fullSizeX w) req
  ({ w with tileSizeX := some eff }, eff)

/-- Modelled from the spec: `getTileSizeX()` returns the last negotiated
effective tile width, defaulting to the full plane width. -/
def getTileSizeX (w : Writer) : Nat :=
  w.tileSizeX.getD (fullSizeX w)

/-- Modelled from the spec: `setTileSizeY(size)` negotiates the requested
tile height against the format's tiling support, records the effective
height and returns it. -/
def setTileSizeY (w : Writer) (req : Option Nat) : Writer × Nat :=
  let eff := negotiateTileSize w.format.tilingY (fullSizeY w) req
  ({ w with tileSizeY := some eff }, eff)

/-- Modelled from the spec: `getTileSizeY()` returns the last negotiated
effective tile height, defaulting to the full plane height. -/
def getTileSizeY (w : Writer) : Nat :=
  w.tileSizeY.getD (fullSizeY w)

/-- Modelled from the spec: `changeOutputFile(path)` closes the current
destination and reopens against `path`, preserving every other setting
and the metadata binding, and resetting the addressing cursor to series 0
and plane 0; the new destination starts with no writes. -/
def changeOutputFile (w : Writer) (path : String) : Writer :=
  { w with outputFile := some path
           series := 0
           plane := 0
           output := [] }

/-- Expected element count of a full-plane buffer:
`sizeX * sizeY * bytesPerPixel * rgbChannelCount`. -/
def expectedFullCount (sm : CoreMetadata) : Nat :=
  sm.sizeX * sm.sizeY * bytesPerPixel sm.pixelType * sm.rgbChannelCount

/-- Expected element count of a sub-region buffer:
`w * h * bytesPerPixel * rgbChannelCount`. -/
def expectedRegionCount (sm : CoreMetadata) (rw rh : Nat) : Nat :=
  rw * rh * bytesPerPixel sm.pixelType * sm.rgbChannelCount

/-- Modelled from the spec: rule 4 of the plane write validator — the
series' pixel type must be globally supported (`UnsupportedPixelType`
otherwise) and, if a compression is set, supported for that compression
(`UnsupportedCompression` otherwise). -/
def validatePixelSupport (w : Writer) (sm : CoreMetadata) : Option WriterError :=
  if isSupportedType w.format sm.pixelType then
    match w.compression with
    | none => none
    | some c =>
        if isSupportedTypeForCodec w.format sm.pixelType c then none
        else some .unsupportedCompression
  else some .unsupportedPixelType

/-- Modelled from the spec: validation of a full-plane `saveBytes` call, in
order — metadata binding present, plane index legal for the active
series, buffer element count equal to the full-plane expectation, pixel
type and compression supported. -/
def validateSaveFull (w : Writer) (plane : Nat) (buf : PixelBuffer) : Option WriterError :=
  match w.metadata with
  | none => some .notConfigured
  | some md =>
      match md[w.series]? with
      | none => some .invalidIndex
      | some sm =>
          if sm.planeCount ≤ plane then some .invalidIndex
          else if buf.size ≠ expectedFullCount sm then some .bufferSizeMismatch
          else validatePixelSupport w sm

/-- Modelled from the spec: validation of a sub-region `saveBytes` call, in
order — metadata binding present, plane index legal, rectangle within the
plane bounds with positive extent (`InvalidRegion` otherwise), buffer
element count equal to the sub-region expectation, pixel type and
compression supported. -/
def validateSaveRegion (w : Writer) (plane : Nat) (buf : PixelBuffer)
    (x y rw rh : Nat) : Option WriterError :=
  match w.metadata with
  | none => some .notConfigured
  | some md =>
      match md[w.series]? with
      | none => some .invalidIndex
      | some sm =>
          if sm.planeCount ≤ plane then some .invalidIndex
          else if sm.sizeX < x + rw ∨ sm.sizeY < y + rh ∨ rw = 0 ∨ rh = 0 then
            some .invalidRegion
          else if buf.size ≠ expectedRegionCount sm rw rh then some .bufferSizeMismatch
          else validatePixelSupport w sm

/-- Hand one validated write to the format encoder: append its record to
the output state. -/
def commitWrite (w : Writer) (r : WriteRecord) : Writer :=
  { w with output := w.output ++ [r] }

/-- Modelled from the spec: the full-plane `saveBytes(plane, buf)` —
validation is fully completed first; on failure the writer is unchanged
and the error is signalled, on success the full plane is handed to the
encoder and marked written. -/
def saveBytes (w : Writer) (plane : Nat) (buf : PixelBuffer) : Writer × Option WriterError :=
  match validateSaveFull w plane buf with
  | some e => (w, some e)
  | none => (commitWrite w ⟨w.series, plane, 0, 0, fullSizeX w, fullSizeY w⟩, none)

/-- Modelled from the spec: the sub-region
`saveBytes(plane, buf, x, y, w, h)` — validation is fully completed
first; on failure the writer is unchanged and the error is signalled, on
success the rectangle is handed to the encoder and marked written. -/
def saveBytesRegion (w : Writer) (plane : Nat) (buf : PixelBuffer)
    (x y rw rh : Nat) : Writer × Option WriterError :=
  match validateSaveRegion w plane buf x y rw rh with
  | some e => (w, some e)
  | none => (commitWrite w ⟨w.series, plane, x, y, rw, rh⟩, none)

/-- A small concrete format used to evaluate the model: two pixel types,
two compression identifiers, `zip` paired only with `uint8`, a fixed set
of tile widths and arbitrary tile heights. -/
def sampleFormat : Format :=
  { pixelTypes := [.uint8, .uint16]
    compressionTypes := ["none", "zip"]
    codecPairing := fun t c => decide (c = "none") || decide (t = .uint8 ∧ c = "zip")
    tilingX := .fixedSizes [16, 32]
    tilingY := .arbitrary
    stackSupport := true }

/-- A concrete format with no tiling support on either axis. -/
def sampleFormatNoTiling : Format :=
  { sampleFormat with tilingX := .unsupported
                      tilingY := .unsupported }

/-- First sample series: 4x3, two planes, uint8, one channel. -/
def sampleSeries0 : CoreMetadata :=
  { sizeX := 4, sizeY := 3, planeCount := 2, pixelType := .uint8, rgbChannelCount := 1 }

/-- Second sample series: 2x2, one plane, uint16, one channel. -/
def sampleSeries1 : CoreMetadata :=
  { sizeX := 2, sizeY := 2, planeCount := 1, pixelType := .uint16, rgbChannelCount := 1 }

/-- Sample metadata binding with two series. -/
def sampleMetadata : List CoreMetadata :=
  [sampleSeries0, sampleSeries1]

/-- A configured sample writer. -/
def sampleWriter : Writer :=
  setMetadataRetrieve (initialWriter sampleFormat) sampleMetadata

/-- A configured writer on a format with no tiling support. -/
def sampleWriterNoTiling : Writer :=
  setMetadataRetrieve (initialWriter sampleFormatNoTiling) sampleMetadata

/-- A degenerate series of declared width zero. -/
def degenerateSeries : CoreMetadata :=
  { sizeX := 0, sizeY := 3, planeCount := 1, pixelType := .uint8, rgbChannelCount := 1 }

/-- Metadata declaring a degenerate series of width zero. -/
def degenerateMetadata : List CoreMetadata :=
  [degenerateSeries]

/-- A configured writer whose active series has width zero. -/
def degenerateWriter : Writer :=
  setMetadataRetrieve (initialWriter sampleFormat) degenerateMetadata

/-- C1: every `saveBytes` call (full-plane or sub-region overload) that
fails any validation check signals the failure synchronously at the point
of the call, the writer's state — in particular its output state — is
unchanged, and the failure is exactly the one reported by the validator,
which runs to completion before anything is handed to the encoder. -/
theorem saveBytes_failure_leaves_writer_unchanged (w : Writer) (plane : Nat)
    (buf : PixelBuffer) (x y rw rh : Nat) (e1 e2 : WriterError) :
    ((saveBytes w plane buf).2 = some e1 →
      (saveBytes w plane buf).1 = w ∧ validateSaveFull w plane buf = some e1) ∧
    ((saveBytesRegion w plane buf x y rw rh).2 = some e2 →
      (saveBytesRegion w plane buf x y rw rh).1 = w ∧
      validateSaveRegion w plane buf x y rw rh = some e2) := by
  constructor
  · intro h
    rcases hv : validateSaveFull w plane buf with _ | e
    · simp [saveBytes, hv] at h
    · simp [saveBytes, hv] at h ⊢
      exact h
  · intro h
    rcases hv : validateSaveRegion w plane buf x y rw rh with _ | e
    · simp [saveBytesRegion, hv] at h
    · simp [saveBytesRegion, hv] at h ⊢
      exact h

/-- Witness for C1: a call on an unconfigured writer fails and leaves the
writer unchanged, for both overloads. -/
theorem saveBytes_failure_leaves_writer_unchanged_witness :
    (saveBytes (initialWriter sampleFormat) 0 ⟨12, .uint8⟩).1 = initialWriter sampleFormat ∧
    (saveBytesRegion (initialWriter sampleFormat) 0 ⟨12, .uint8⟩ 0 0 1 1).1 =
      initialWriter sampleFormat :=
  ⟨((saveBytes_failure_leaves_writer_unchanged (initialWriter sampleFormat) 0
      ⟨12, .uint8⟩ 0 0 1 1 .notConfigured .notConfigured).1 rfl).1,
   ((saveBytes_failure_leaves_writer_unchanged (initialWriter sampleFormat) 0
      ⟨12, .uint8⟩ 0 0 1 1 .notConfigured .notConfigured).2 rfl).1⟩

/-- C2: with a valid plane index (and, for the sub-region overload, a valid
region), a `saveBytes` call whose buffer element count differs from
`width*height*bytesPerPixel*rgbChannelCount` (full plane) respectively
`w*h*bytesPerPixel*rgbChannelCount` (sub-region) fails with
`BufferSizeMismatch`. -/
theorem saveBytes_bufferSizeMismatch (w : Writer) (md : List CoreMetadata)
    (sm : CoreMetadata) (plane : Nat) (buf : PixelBuffer) (x y rw rh : Nat)
    (hmd : w.metadata = some md) (hsm : md[w.series]? = some sm)
    (hp : plane < sm.planeCount) :
    (buf.size ≠ expectedFullCount sm →
      (saveBytes w plane buf).2 = some .bufferSizeMismatch) ∧
    (x + rw ≤ sm.sizeX → y + rh ≤ sm.sizeY → 0 < rw → 0 < rh →
      buf.size ≠ expectedRegionCount sm rw rh →
      (saveBytesRegion w plane buf x y rw rh).2 = some .bufferSizeMismatch) := by
  constructor
  · intro hbuf
    simp [saveBytes, validateSaveFull, hmd, hsm, Nat.not_le.mpr hp, hbuf]
  · intro hx hy hrw hrh hbuf
    have hreg : ¬ (sm.sizeX < x + rw ∨ sm.sizeY < y + rh ∨ rw = 0 ∨ rh = 0) := by
      omega
    simp [saveBytesRegion, validateSaveRegion, hmd, hsm, Nat.not_le.mpr hp, hreg, hbuf]

/-- Witness for C2: a buffer of 11 elements is rejected both for the full
4x3 plane (expecting 12) and for a 2x2 sub-region (expecting 4). -/
theorem saveBytes_bufferSizeMismatch_witness :
    (saveBytes sampleWriter 0 ⟨11, .uint8⟩).2 = some .bufferSizeMismatch ∧
    (saveBytesRegion sampleWriter 0 ⟨11, .uint8⟩ 0 0 2 2).2 = some .bufferSizeMismatch :=
  ⟨(saveBytes_bufferSizeMismatch sampleWriter sampleMetadata sampleSeries0 0
      ⟨11, .uint8⟩ 0 0 2 2 rfl rfl (by decide)).1 (by decide),
   (saveBytes_bufferSizeMismatch sampleWriter sampleMetadata sampleSeries0 0
      ⟨11, .uint8⟩ 0 0 2 2 rfl rfl (by decide)).2 (by decide) (by decide)
      (by decide) (by decide) (by decide)⟩

/-- C4: on a configured writer, `setSeries(i)` with `i` at or above the
series count fails with `InvalidIndex` and leaves the writer — in
particular the active series — unchanged; symmetrically, `setPlane(i)`
with `i` at or above the active series' plane count fails with
`InvalidIndex` and leaves the active plane unchanged. -/
theorem setSeries_setPlane_invalidIndex (w : Writer) (md : List CoreMetadata)
    (i j : Nat) (hmd : w.metadata = some md) :
    (md.length ≤ i →
      (setSeries w i).2 = some .invalidIndex ∧ (setSeries w i).1 = w) ∧
    (∀ sm, md[w.series]? = some sm → sm.planeCount ≤ j →
      (setPlane w j).2 = some .invalidIndex ∧ (setPlane w j).1 = w) := by
  constructor
  · intro hi
    simp [setSeries, hmd, Nat.not_lt.mpr hi]
  · intro sm hsm hj
    simp [setPlane, hmd, hsm, Nat.not_lt.mpr hj]

/-- Witness for C4: on the two-series sample writer, `setSeries 7` and
`setPlane 9` both fail with `InvalidIndex` and change nothing. -/
theorem setSeries_setPlane_invalidIndex_witness :
    ((setSeries sampleWriter 7).2 = some .invalidIndex ∧
      (setSeries sampleWriter 7).1 = sampleWriter) ∧
    ((setPlane sampleWriter 9).2 = some .invalidIndex ∧
      (setPlane sampleWriter 9).1 = sampleWriter) :=
  ⟨(setSeries_setPlane_invalidIndex sampleWriter sampleMetadata 7 9 rfl).1 (by decide),
   (setSeries_setPlane_invalidIndex sampleWriter sampleMetadata 7 9 rfl).2
      sampleSeries0 rfl (by decide)⟩

/-- C5: for every in-bounds pair, `setSeries(series)` then `setPlane(plane)`
followed by `getSeries()` and `getPlane()` round-trips exactly, and
`getSeries()` is 0 immediately after the metadata binding is attached to a
fresh writer. -/
theorem cursor_round_trip (w : Writer) (md : List CoreMetadata) (sm : CoreMetadata)
    (s p : Nat) (hmd : w.metadata = some md) (hs : s < md.length)
    (hsm : md[s]? = some sm) (hp : p < sm.planeCount) :
    getSeries (setPlane (setSeries w s).1 p).1 = s ∧
    getPlane (setPlane (setSeries w s).1 p).1 = p ∧
    ∀ (f : Format) (md2 : List CoreMetadata),
      getSeries (setMetadataRetrieve (initialWriter f) md2) = 0 := by
  have h1 : (setSeries w s).1 = { w with series := s } := by
    simp [setSeries, hmd, hs]
  rw [h1]
  have h2 : (setPlane { w with series := s } p).1 = { w with series := s, plane := p } := by
    simp [setPlane, hmd, hsm, hp]
  rw [h2]
  exact ⟨rfl, rfl, fun f md2 => rfl⟩

/-- Witness for C5: positioning the sample writer at series 1, plane 0
round-trips through the getters. -/
theorem cursor_round_trip_witness :
    getSeries (setPlane (setSeries sampleWriter 1).1 0).1 = 1 ∧
    getPlane (setPlane (setSeries sampleWriter 1).1 0).1 = 0 :=
  ⟨(cursor_round_trip sampleWriter sampleMetadata sampleSeries1 1 0 rfl (by decide)
      rfl (by decide)).1,
   (cursor_round_trip sampleWriter sampleMetadata sampleSeries1 1 0 rfl (by decide)
      rfl (by decide)).2.1⟩

/-- C6: a successful `setSeries(i)` changes only the active series and keeps
the active plane index; if the retained plane index is at or above the new
series' plane count, a subsequent `saveBytes` at that plane index itself
fails with `InvalidIndex`. -/
theorem setSeries_no_plane_reset (w : Writer) (i : Nat)
    (h : (setSeries w i).2 = none) :
    (setSeries w i).1 = { w with series := i } ∧
    ∀ (md : List CoreMetadata) (sm : CoreMetadata) (buf : PixelBuffer),
      w.metadata = some md → md[i]? = some sm → sm.planeCount ≤ w.plane →
      (saveBytes (setSeries w i).1 w.plane buf).2 = some .invalidIndex := by
  have h1 : (setSeries w i).1 = { w with series := i } := by
    rcases hm : w.metadata with _ | md0
    · simp [setSeries, hm] at h
    · by_cases hi : i < md0.length
      · simp [setSeries, hm, hi]
      · simp [setSeries, hm, hi] at h
  refine ⟨h1, fun md sm buf hmd hsm hpc => ?_⟩
  rw [h1]
  simp [saveBytes, validateSaveFull, hmd, hsm, hpc]

/-- Witness for C6: after moving the sample writer to plane 1 of series 0,
switching to series 1 (one plane only) keeps plane 1, and saving at the
retained plane index fails with `InvalidIndex`. -/
theorem setSeries_no_plane_reset_witness :
    (setSeries (setPlane sampleWriter 1).1 1).1 =
      { (setPlane sampleWriter 1).1 with series := 1 } ∧
    (saveBytes (setSeries (setPlane sampleWriter 1).1 1).1
      (setPlane sampleWriter 1).1.plane ⟨4, .uint16⟩).2 = some .invalidIndex :=
  ⟨(setSeries_no_plane_reset (setPlane sampleWriter 1).1 1 rfl).1,
   (setSeries_no_plane_reset (setPlane sampleWriter 1).1 1 rfl).2
      sampleMetadata sampleSeries1 ⟨4, .uint16⟩ rfl rfl (by decide)⟩

/-- C3 counterexample: the claim as stated fails twice on the model.  A
sub-region call whose rectangle exceeds the plane width but whose plane
index is also out of range fails with `InvalidIndex`, not `InvalidRegion`
(the plane check runs first); and on a series of declared width zero the
maximal region `(0,0,width,height)` with a correctly sized (empty) buffer
is rejected as `InvalidRegion` while the full-plane overload succeeds, so
the two overloads do not behave identically there. -/
theorem saveBytesRegion_region_claim_counterexample :
    (sampleSeries0.sizeX < 0 + 10 ∧
      (saveBytesRegion sampleWriter 5 ⟨12, .uint8⟩ 0 0 10 3).2 ≠
        some WriterError.invalidRegion) ∧
    (activeSeriesMeta degenerateWriter = some degenerateSeries ∧
      (0 : Nat) = expectedFullCount degenerateSeries ∧
      (saveBytesRegion degenerateWriter 0 ⟨0, .uint8⟩ 0 0
          (fullSizeX degenerateWriter) (fullSizeY degenerateWriter)).2 ≠
        (saveBytes degenerateWriter 0 ⟨0, .uint8⟩).2) := by
  decide

/-- C3 (amended): on a configured writer with a valid plane index, a
sub-region call whose rectangle has `x+w > width`, `y+h > height`, `w = 0`
or `h = 0` fails with `InvalidRegion`; and when the active series has
positive declared width and height, the maximal region
`(0,0,width,height)` with a correctly sized buffer behaves identically to
the full-plane overload. -/
theorem saveBytesRegion_region_check (w : Writer) (md : List CoreMetadata)
    (sm : CoreMetadata) (plane : Nat) (buf : PixelBuffer) (x y rw rh : Nat)
    (hmd : w.metadata = some md) (hsm : md[w.series]? = some sm) :
    (plane < sm.planeCount →
      sm.sizeX < x + rw ∨ sm.sizeY < y + rh ∨ rw = 0 ∨ rh = 0 →
      (saveBytesRegion w plane buf x y rw rh).2 = some .invalidRegion) ∧
    (0 < sm.sizeX → 0 < sm.sizeY → buf.size = expectedFullCount sm →
      saveBytesRegion w plane buf 0 0 sm.sizeX sm.sizeY = saveBytes w plane buf) := by
  constructor
  · intro hp hbad
    have hval : validateSaveRegion w plane buf x y rw rh = some .invalidRegion := by
      simp only [validateSaveRegion, hmd, hsm]
      rw [if_neg (Nat.not_le.mpr hp), if_pos hbad]
    simp [saveBytesRegion, hval]
  · intro hx hy _
    have hval : validateSaveRegion w plane buf 0 0 sm.sizeX sm.sizeY =
        validateSaveFull w plane buf := by
      simp only [validateSaveRegion, validateSaveFull, hmd, hsm]
      have hc : ¬ (sm.sizeX < 0 + sm.sizeX ∨ sm.sizeY < 0 + sm.sizeY ∨
          sm.sizeX = 0 ∨ sm.sizeY = 0) := by omega
      rw [if_neg hc]
      rfl
    have hfx : fullSizeX w = sm.sizeX := by
      simp [fullSizeX, activeSeriesMeta, hmd, hsm]
    have hfy : fullSizeY w = sm.sizeY := by
      simp [fullSizeY, activeSeriesMeta, hmd, hsm]
    simp only [saveBytesRegion, saveBytes, hval]
    cases validateSaveFull w plane buf with
    | some e => rfl
    | none => rw [hfx, hfy]

/-- Witness for C3 (amended): a rectangle 10 wide on the 4-wide sample plane
is rejected as `InvalidRegion`, and the maximal region `(0,0,4,3)` with a
12-element buffer agrees with the full-plane overload. -/
theorem saveBytesRegion_region_check_witness :
    (saveBytesRegion sampleWriter 0 ⟨12, .uint8⟩ 0 0 10 3).2 =
      some .invalidRegion ∧
    saveBytesRegion sampleWriter 0 ⟨12, .uint8⟩ 0 0 4 3 =
      saveBytes sampleWriter 0 ⟨12, .uint8⟩ :=
  ⟨(saveBytesRegion_region_check sampleWriter sampleMetadata sampleSeries0 0
      ⟨12, .uint8⟩ 0 0 10 3 rfl rfl).1 (by decide) (by decide),
   (saveBytesRegion_region_check sampleWriter sampleMetadata sampleSeries0 0
      ⟨12, .uint8⟩ 0 0 10 3 rfl rfl).2 (by decide) (by decide) (by decide)⟩

/-- C7: the two-argument capability queries agree with the unconditional
ones through the declared pairing relation — `getPixelTypes(codec)` is the
unconditional pixel type set restricted to the types paired with the
codec, `getCompressionTypes(type)` is the unconditional compression set
restricted to the codecs paired with the type, `isSupportedType(type,
codec)` holds exactly when the type is in `getPixelTypes(codec)` — and no
writer operation ever mutates the registry after construction. -/
theorem capability_registry_consistent (f : Format) (t : PixelType) (c : String) :
    (t ∈ getPixelTypesForCodec f c ↔
      t ∈ getPixelTypes f ∧ f.codecPairing t c = true) ∧
    (c ∈ getCompressionTypesForType f t ↔
      c ∈ getCompressionTypes f ∧ f.codecPairing t c = true) ∧
    (isSupportedTypeForCodec f t c = true ↔ t ∈ getPixelTypesForCodec f c) ∧
    (isSupportedType f t = true ↔ t ∈ getPixelTypes f) ∧
    ∀ (w : Writer) (i p x y rw rh rate : Nat) (req : Option Nat)
      (buf : PixelBuffer) (path compName : String) (md : List CoreMetadata)
      (b : Bool),
      (setSeries w i).1.format = w.format ∧
      (setPlane w i).1.format = w.format ∧
      (setCompression w compName).1.format = w.format ∧
      (setInterleaved w b).format = w.format ∧
      (setWriteSequentially w b).format = w.format ∧
      (setFramesPerSecond w rate).format = w.format ∧
      (setMetadataRetrieve w md).format = w.format ∧
      (setTileSizeX w req).1.format = w.format ∧
      (setTileSizeY w req).1.format = w.format ∧
      (changeOutputFile w path).format = w.format ∧
      (saveBytes w p buf).1.format = w.format ∧
      (saveBytesRegion w p buf x y rw rh).1.format = w.format := by
  refine ⟨?_, ?_, ?_, ?_, ?_⟩
  · simp [getPixelTypesForCodec, List.mem_filter]
  · simp [getCompressionTypesForType, List.mem_filter]
  · simp [isSupportedTypeForCodec]
  · simp [isSupportedType]
  · intro w i p x y rw rh rate req buf path compName md b
    refine ⟨?_, ?_, ?_, rfl, rfl, rfl, rfl, rfl, rfl, rfl, ?_, ?_⟩
    · rcases hw : w.metadata with _ | md2
      · simp [setSeries, hw]
      · simp only [setSeries, hw]
        split <;> rfl
    · rcases hw : w.metadata with _ | md2
      · simp [setPlane, hw]
      · simp only [setPlane, hw]
        rcases md2[w.series]? with _ | sm
        · rfl
        · dsimp only
          split <;> rfl
    · simp only [setCompression]
      split <;> rfl
    · simp only [saveBytes]
      split <;> rfl
    · simp only [saveBytesRegion]
      split <;> rfl

/-- If `smallestAtLeast` returns a size, it is a supported size not below
the request, and no smaller supported size is at or above the request. -/
theorem smallestAtLeast_mem (sizes : List Nat) (r e : Nat)
    (h : smallestAtLeast sizes r = some e) :
    e ∈ sizes ∧ r ≤ e ∧ ∀ s ∈ sizes, r ≤ s → e ≤ s := by
  unfold smallestAtLeast at h
  rw [List.min?_eq_some_iff'] at h
  obtain ⟨hmem, hmin⟩ := h
  rw [List.mem_filter] at hmem
  refine ⟨hmem.1, by simpa using hmem.2, fun s hs hrs => ?_⟩
  exact hmin s (List.mem_filter.mpr ⟨hs, by simpa using hrs⟩)

/-- If every supported size is below the request, `smallestAtLeast` returns
nothing. -/
theorem smallestAtLeast_eq_none (sizes : List Nat) (r : Nat)
    (h : ∀ s ∈ sizes, s < r) : smallestAtLeast sizes r = none := by
  unfold smallestAtLeast
  rw [List.min?_eq_none_iff, List.filter_eq_nil_iff]
  intro a ha
  have := h a ha
  simp only [decide_eq_true_eq]
  omega

/-- If some supported size is at or above the request, `smallestAtLeast`
returns a size. -/
theorem smallestAtLeast_isSome (sizes : List Nat) (r s : Nat)
    (hs : s ∈ sizes) (hrs : r ≤ s) :
    ∃ e, smallestAtLeast sizes r = some e := by
  cases he : smallestAtLeast sizes r with
  | some e => exact ⟨e, rfl⟩
  | none =>
    unfold smallestAtLeast at he
    rw [List.min?_eq_none_iff] at he
    have hmem : s ∈ sizes.filter (fun s => r ≤ s) :=
      List.mem_filter.mpr ⟨hs, by simpa using hrs⟩
    rw [he] at hmem
    simp at hmem

/-- C8: tile negotiation — with arbitrary tiling support the effective size
equals the request; with a fixed set it is the smallest supported size at
or above the request, or the full plane dimension when no supported size
qualifies; with tiling unsupported it is always the full plane dimension;
the getters return the last negotiated effective value and default to the
full plane dimension before any request; and negotiating the same request
twice yields the same effective size — on both axes. -/
theorem tile_size_negotiation (w : Writer) (r : Nat) (req : Option Nat)
    (sizes : List Nat) :
    (w.format.tilingX = .arbitrary → (setTileSizeX w (some r)).2 = r) ∧
    (w.format.tilingX = .fixedSizes sizes → (∃ s ∈ sizes, r ≤ s) →
      (setTileSizeX w (some r)).2 ∈ sizes ∧ r ≤ (setTileSizeX w (some r)).2 ∧
      ∀ s ∈ sizes, r ≤ s → (setTileSizeX w (some r)).2 ≤ s) ∧
    (w.format.tilingX = .fixedSizes sizes → (∀ s ∈ sizes, s < r) →
      (setTileSizeX w (some r)).2 = fullSizeX w) ∧
    (w.format.tilingX = .unsupported → (setTileSizeX w (some r)).2 = fullSizeX w) ∧
    getTileSizeX (setTileSizeX w req).1 = (setTileSizeX w req).2 ∧
    (w.tileSizeX = none → getTileSizeX w = fullSizeX w) ∧
    (setTileSizeX (setTileSizeX w req).1 req).2 = (setTileSizeX w req).2 ∧
    (w.format.tilingY = .arbitrary → (setTileSizeY w (some r)).2 = r) ∧
    (w.format.tilingY = .fixedSizes sizes → (∃ s ∈ sizes, r ≤ s) →
      (setTileSizeY w (some r)).2 ∈ sizes ∧ r ≤ (setTileSizeY w (some r)).2 ∧
      ∀ s ∈ sizes, r ≤ s → (setTileSizeY w (some r)).2 ≤ s) ∧
    (w.format.tilingY = .fixedSizes sizes → (∀ s ∈ sizes, s < r) →
      (setTileSizeY w (some r)).2 = fullSizeY w) ∧
    (w.format.tilingY = .unsupported → (setTileSizeY w (some r)).2 = fullSizeY w) ∧
    getTileSizeY (setTileSizeY w req).1 = (setTileSizeY w req).2 ∧
    (w.tileSizeY = none → getTileSizeY w = fullSizeY w) ∧
    (setTileSizeY (setTileSizeY w req).1 req).2 = (setTileSizeY w req).2 := by
  refine ⟨fun hx => ?_, fun hx he => ?_, fun hx hnone => ?_, fun hx => ?_,
    rfl, fun hd => ?_, rfl,
    fun hy => ?_, fun hy he => ?_, fun hy hnone => ?_, fun hy => ?_,
    rfl, fun hd => ?_, rfl⟩
  · simp [setTileSizeX, negotiateTileSize, hx]
  · obtain ⟨s, hs, hrs⟩ := he
    obtain ⟨e, hesome⟩ := smallestAtLeast_isSome sizes r s hs hrs
    have heff : (setTileSizeX w (some r)).2 = e := by
      simp [setTileSizeX, negotiateTileSize, hx, hesome]
    rw [heff]
    exact smallestAtLeast_mem sizes r e hesome
  · simp [setTileSizeX, negotiateTileSize, hx, smallestAtLeast_eq_none sizes r hnone]
  · simp [setTileSizeX, negotiateTileSize, hx]
  · simp [getTileSizeX, hd]
  · simp [setTileSizeY, negotiateTileSize, hy]
  · obtain ⟨s, hs, hrs⟩ := he
    obtain ⟨e, hesome⟩ := smallestAtLeast_isSome sizes r s hs hrs
    have heff : (setTileSizeY w (some r)).2 = e := by
      simp [setTileSizeY, negotiateTileSize, hy, hesome]
    rw [heff]
    exact smallestAtLeast_mem sizes r e hesome
  · simp [setTileSizeY, negotiateTileSize, hy, smallestAtLeast_eq_none sizes r hnone]
  · simp [setTileSizeY, negotiateTileSize, hy]
  · simp [getTileSizeY, hd]

/-- Witness for C8: on the sample format, an arbitrary-size axis adopts the
request (7), a fixed-set axis rounds 10 up into the supported set, rounds
100 up to the full plane width, a tiling-free format always answers the
full plane width, and the getter defaults to the full plane width. -/
theorem tile_size_negotiation_witness :
    (setTileSizeY sampleWriter (some 7)).2 = 7 ∧
    ((setTileSizeX sampleWriter (some 10)).2 ∈ [16, 32] ∧
      10 ≤ (setTileSizeX sampleWriter (some 10)).2) ∧
    (setTileSizeX sampleWriter (some 100)).2 = fullSizeX sampleWriter ∧
    (setTileSizeX sampleWriterNoTiling (some 5)).2 = fullSizeX sampleWriterNoTiling ∧
    getTileSizeX sampleWriter = fullSizeX sampleWriter :=
  ⟨(tile_size_negotiation sampleWriter 7 none []).2.2.2.2.2.2.2.1 rfl,
   ⟨((tile_size_negotiation sampleWriter 10 none [16, 32]).2.1 rfl
      ⟨16, by decide, by decide⟩).1,
    ((tile_size_negotiation sampleWriter 10 none [16, 32]).2.1 rfl
      ⟨16, by decide, by decide⟩).2.1⟩,
   (tile_size_negotiation sampleWriter 100 none [16, 32]).2.2.1 rfl (by decide),
   (tile_size_negotiation sampleWriterNoTiling 5 none []).2.2.2.1 rfl,
   (tile_size_negotiation sampleWriter 0 none []).2.2.2.2.2.1 rfl⟩

/-- C9: `changeOutputFile(path)` resets the addressing cursor to series 0
and plane 0 whatever its position was, and preserves the compression
setting, the interleaving setting, both tile sizes and the metadata
binding. -/
theorem changeOutputFile_resets_cursor (w : Writer) (path : String) :
    getSeries (changeOutputFile w path) = 0 ∧
    getPlane (changeOutputFile w path) = 0 ∧
    (changeOutputFile w path).compression = w.compression ∧
    (changeOutputFile w path).interleaved = w.interleaved ∧
    (changeOutputFile w path).tileSizeX = w.tileSizeX ∧
    (changeOutputFile w path).tileSizeY = w.tileSizeY ∧
    (changeOutputFile w path).metadata = w.metadata :=
  ⟨rfl, rfl, rfl, rfl, rfl, rfl, rfl⟩

/-- C10: `setFramesPerSecond(r)` followed by `getFramesPerSecond()` returns
`r` reduced modulo 2^16 (the `frame_rate_type` typedef is `uint16_t`),
with no further validation; in particular every rate below 2^16 is
returned exactly. -/
theorem framesPerSecond_round_trip (w : Writer) (rate : Nat) :
    getFramesPerSecond (setFramesPerSecond w rate) = rate % 2 ^ 16 ∧
    (rate < 2 ^ 16 → getFramesPerSecond (setFramesPerSecond w rate) = rate) := by
  refine ⟨rfl, fun h => ?_⟩
  simp only [getFramesPerSecond, setFramesPerSecond]
  omega

/-- Witness for C10: a frame rate of 24 round-trips exactly. -/
theorem framesPerSecond_round_trip_witness :
    getFramesPerSecond (setFramesPerSecond sampleWriter 24) = 24 :=
  (framesPerSecond_round_trip sampleWriter 24).2 (by decide)

end OmeFiles
